import Mathlib

/-!
Shallow embedding of the Student Schedule Organizer backend
(`src/main.py`, `src/schemas.py`) and proofs about its specified behaviour.

The HTTP glue (FastAPI routing, CORS) is out of scope; each endpoint handler
is embedded as a pure function over an explicit document-store state.  The
`database` module (document store adapter: `create_document`, `get_documents`)
is not part of the sources, so its behaviour is modelled from the spec where a
claim depends on it; such definitions say so in their doc comment.
-/

namespace SSO

/-! ## SHA-256 (hashlib.sha256(...).hexdigest() over UTF-8 bytes)

`main.py` line 25: `hash_password` returns the SHA-256 hex digest of the
UTF-8 encoding of the password.  SHA-256 is embedded here over `Nat` with
explicit reduction modulo `2^32`. -/

/-- Reduce modulo `2^32`, the word size of SHA-256. -/
def w32 (n : Nat) : Nat := n % 4294967296

/-- Right rotation of a 32-bit word held in a `Nat`. -/
def rotr32 (k n : Nat) : Nat := w32 ((n >>> k) ||| (n <<< (32 - k)))

/-- SHA-256 `Ch(x,y,z)`; bitwise not within 32 bits is xor with `2^32 - 1`. -/
def chFn (x y z : Nat) : Nat := (x &&& y) ^^^ ((x ^^^ 4294967295) &&& z)

/-- SHA-256 `Maj(x,y,z)`. -/
def majFn (x y z : Nat) : Nat := (x &&& y) ^^^ (x &&& z) ^^^ (y &&& z)

/-- SHA-256 big sigma 0. -/
def bSig0 (x : Nat) : Nat := rotr32 2 x ^^^ rotr32 13 x ^^^ rotr32 22 x

/-- SHA-256 big sigma 1. -/
def bSig1 (x : Nat) : Nat := rotr32 6 x ^^^ rotr32 11 x ^^^ rotr32 25 x

/-- SHA-256 small sigma 0. -/
def sSig0 (x : Nat) : Nat := rotr32 7 x ^^^ rotr32 18 x ^^^ (x >>> 3)

/-- SHA-256 small sigma 1. -/
def sSig1 (x : Nat) : Nat := rotr32 17 x ^^^ rotr32 19 x ^^^ (x >>> 10)

/-- The 64 SHA-256 round constants, written in decimal. -/
def roundK : List Nat :=
  [1116352408, 1899447441, 3049323471, 3921009573, 961987163, 1508970993,
   2453635748, 2870763221, 3624381080, 310598401, 607225278, 1426881987,
   1925078388, 2162078206, 2614888103, 3248222580, 3835390401, 4022224774,
   264347078, 604807628, 770255983, 1249150122, 1555081692, 1996064986,
   2554220882, 2821834349, 2952996808, 3210313671, 3336571891, 3584528711,
   113926993, 338241895, 666307205, 773529912, 1294757372, 1396182291,
   1695183700, 1986661051, 2177026350, 2456956037, 2730485921, 2820302411,
   3259730800, 3345764771, 3516065817, 3600352804, 4094571909, 275423344,
   430227734, 506948616, 659060556, 883997877, 958139571, 1322822218,
   1537002063, 1747873779, 1955562222, 2024104815, 2227730452, 2361852424,
   2428436474, 2756734187, 3204031479, 3329325298]

/-- The initial SHA-256 hash state, written in decimal. -/
def initH : List Nat :=
  [1779033703, 3144134277, 1013904242, 2773480762,
   1359893119, 2600822924, 528734635, 1541459225]

/-- Number of zero bytes inserted by SHA-256 padding after the `0x80` byte. -/
def padZeroCount (len : Nat) : Nat := (119 - len % 64) % 64

/-- Big-endian 8-byte encoding of the bit length for SHA-256 padding. -/
def lenBytes (bitLen : Nat) : List Nat :=
  [(bitLen >>> 56) &&& 255, (bitLen >>> 48) &&& 255, (bitLen >>> 40) &&& 255,
   (bitLen >>> 32) &&& 255, (bitLen >>> 24) &&& 255, (bitLen >>> 16) &&& 255,
   (bitLen >>> 8) &&& 255, bitLen &&& 255]

/-- SHA-256 message padding over a byte list. -/
def padMsg (msg : List Nat) : List Nat :=
  msg ++ 128 :: List.replicate (padZeroCount msg.length) 0 ++ lenBytes (msg.length * 8)

/-- Pack big-endian groups of four bytes into 32-bit words. -/
def bytesToWords : List Nat → List Nat
  | a :: b :: c :: d :: rest => (a * 16777216 + b * 65536 + c * 256 + d) :: bytesToWords rest
  | _ => []

/-- Split a word list into blocks of sixteen words. -/
def blocks16 : List Nat → List (List Nat)
  | w0 :: w1 :: w2 :: w3 :: w4 :: w5 :: w6 :: w7 ::
    w8 :: w9 :: w10 :: w11 :: w12 :: w13 :: w14 :: w15 :: rest =>
      [w0, w1, w2, w3, w4, w5, w6, w7, w8, w9, w10, w11, w12, w13, w14, w15]
        :: blocks16 rest
  | _ => []

/-- One extension step of the SHA-256 message schedule: append the next word. -/
def schedStep (ws : List Nat) : List Nat :=
  let n := ws.length
  ws ++ [w32 (sSig1 (ws.getD (n - 2) 0) + ws.getD (n - 7) 0
              + sSig0 (ws.getD (n - 15) 0) + ws.getD (n - 16) 0)]

/-- Iterate a function a fixed number of times. -/
def iterFn {α : Type} (f : α → α) : Nat → α → α
  | 0, a => a
  | n + 1, a => iterFn f n (f a)

/-- Extend a sixteen-word block to the 64-word SHA-256 message schedule. -/
def schedule (ws : List Nat) : List Nat := iterFn schedStep 48 ws

/-- The 64 SHA-256 compression rounds, driven by the constants and schedule. -/
def rounds : List Nat → List Nat → List Nat → List Nat
  | k :: ks, w :: ws, [a, b, c, d, e, f, g, h] =>
      let t1 := w32 (h + bSig1 e + chFn e f g + k + w)
      let t2 := w32 (bSig0 a + majFn a b c)
      rounds ks ws [w32 (t1 + t2), a, b, c, w32 (d + t1), e, f, g]
  | _, _, st => st

/-- Process one sixteen-word block: compress and add into the running state. -/
def processBlock (st : List Nat) (block : List Nat) : List Nat :=
  List.zipWith (fun x y => w32 (x + y)) st (rounds roundK (schedule block) st)

/-- SHA-256 of a byte list, as the list of eight 32-bit state words. -/
def sha256Words (msg : List Nat) : List Nat :=
  (blocks16 (bytesToWords (padMsg msg))).foldl processBlock initH

/-- Lower-case hexadecimal digit for a value below sixteen. -/
def hexDigit (n : Nat) : Char :=
  if n < 10 then Char.ofNat (48 + n) else Char.ofNat (87 + n)

/-- Eight lower-case hex characters of a 32-bit word, most significant first. -/
def wordHex (n : Nat) : List Char :=
  [hexDigit ((n >>> 28) &&& 15), hexDigit ((n >>> 24) &&& 15),
   hexDigit ((n >>> 20) &&& 15), hexDigit ((n >>> 16) &&& 15),
   hexDigit ((n >>> 12) &&& 15), hexDigit ((n >>> 8) &&& 15),
   hexDigit ((n >>> 4) &&& 15), hexDigit (n &&& 15)]

/-- SHA-256 hex digest of a byte list: 64 lower-case hex characters. -/
def sha256Hex (msg : List Nat) : String := String.mk ((sha256Words msg).flatMap wordHex)

/-- UTF-8 encoding of a string as a list of byte values. -/
def utf8Bytes (s : String) : List Nat :=
  (s.data.flatMap String.utf8EncodeChar).map (fun b => b.toNat)

/-- `main.py` lines 25-26: `hash_password(password)` returns
`hashlib.sha256(password.encode("utf-8")).hexdigest()`. -/
def hash_password (password : String) : String := sha256Hex (utf8Bytes password)

/-! ## JSON-like values and response dictionaries

Endpoint responses are Python dicts; they are embedded as association lists of
field name and value, so claims about which fields a response contains are
claims about its key list. -/

/-- A JSON-like value as returned by the endpoints. -/
inductive JVal where
  | null
  | str (s : String)
  | num (n : Int)
  | boolVal (b : Bool)
deriving DecidableEq, Repr

/-- An optional string field rendered into a response dict (`None` to null). -/
def optStr : Option String → JVal
  | none => JVal.null
  | some s => JVal.str s

/-- An optional integer field rendered into a response dict. -/
def optInt : Option Int → JVal
  | none => JVal.null
  | some n => JVal.num n

/-- An HTTP error as raised by `HTTPException(status_code, detail)`, or
produced by the framework for unhandled exceptions. -/
structure HErr where
  status : Nat
  detail : String
deriving DecidableEq, Repr

/-! ## Stored documents and the document store state

MongoDB `ObjectId`s are modelled as a `Nat` counter, rendered with `toString`
where the code stringifies them.  `db is None` is modelled by operating on an
`Option Store`.  The `writeFault`/`readFault` fields inject "other backend
errors" (spec section 4.1: `WriteFailure`/`ReadFailure`), carrying the message
that Python's `str(e)` would produce. -/

/-- A stored document of the `user` collection (`schemas.py` User). -/
structure UserDoc where
  oid : Nat
  name : String
  email : String
  password_hash : String
  major : Option String
  year : Option String
  avatar : Option String
deriving DecidableEq, Repr

/-- A stored document of the `course` collection (`schemas.py` Course). -/
structure CourseDoc where
  oid : Nat
  code : String
  title : String
  instructor : Option String
  credits : Option Int
  owner_email : String
deriving DecidableEq, Repr

/-- A stored document of the `scheduleentry` collection. -/
structure SchedDoc where
  oid : Nat
  owner_email : String
  title : String
  day : String
  start_time : String
  end_time : String
  location : Option String
  notes : Option String
  color : Option String
deriving DecidableEq, Repr

/-- A stored document of the `announcement` collection. -/
structure AnnDoc where
  oid : Nat
  title : String
  body : String
  visible : Bool
deriving DecidableEq, Repr

/-- The document store state: one list per collection in store-native
(insertion) order, the next generated identifier, and injected backend
faults. -/
structure Store where
  users : List UserDoc
  courses : List CourseDoc
  schedules : List SchedDoc
  announcements : List AnnDoc
  nextId : Nat
  writeFault : Option String
  readFault : Option String
deriving DecidableEq, Repr

/-- Failures of the document store adapter (spec section 4.1). -/
inductive StoreErr where
  | storeUnavailable
  | duplicateKey
  | writeFailure (msg : String)
  | readFailure (msg : String)
deriving DecidableEq, Repr

/-- The message `str(e)` carries for each adapter failure; for injected
backend faults it is exactly the injected message. -/
def storeErrMsg : StoreErr → String
  | .storeUnavailable => "Database not available"
  | .duplicateKey => "duplicate key error"
  | .writeFailure msg => msg
  | .readFailure msg => msg

/-! ## Validation (pydantic payload models and `schemas.py`) -/

/-- Models the external `email-validator` behind pydantic's `EmailStr`:
accepts `local@domain` with a nonempty local part and a single `@`, a domain
containing a dot not at either end, and no spaces. -/
def isValidEmail (s : String) : Bool :=
  let cs := s.data
  let lp := cs.takeWhile (fun c => !(c == '@'))
  match cs.dropWhile (fun c => !(c == '@')) with
  | '@' :: dom =>
      !lp.isEmpty && !dom.isEmpty && dom.contains '.' &&
      !(dom.head? == some '.') && !(dom.getLast? == some '.') &&
      !dom.contains '@' && !cs.contains ' '
  | _ => false

/-- The fields handed to `schemas.py`'s User model by `register_user`. -/
structure UserIn where
  name : String
  email : String
  password_hash : String
  major : Option String
  year : Option String
  avatar : Option String
deriving DecidableEq, Repr

/-- `schemas.py` lines 14-21, the User model's field constraints: name
between 2 and 80 characters, valid email syntax, major at most 80 characters
(year and avatar are unconstrained optional strings). -/
def validUserModel (u : UserIn) : Bool :=
  2 ≤ u.name.length && u.name.length ≤ 80 && isValidEmail u.email &&
  (match u.major with | none => true | some m => m.length ≤ 80)

/-- `schemas.py` lines 24-30, the Course model's field constraints: credits,
when present, an integer between 0 and 10, and a valid owner email.
`main.py`'s `create_course` never applies this model to its payload. -/
def validCourseModel (p : Option Int) (owner_email : String) : Bool :=
  isValidEmail owner_email && (match p with | none => true | some c => 0 ≤ c && c ≤ 10)

/-! ## Document store adapter

The `database` module (`db`, `create_document`, `get_documents`) is imported
by `main.py` but is not among the sources, so the definitions below are
modelled from the spec's Document Store Adapter contract (section 4.1). -/

/-- Modelled from the spec: `createDocument("user", record)` — absent the
`database` module's code.  Fails with `StoreUnavailable` without a live
connection, with `DuplicateKey` when the unique index on `User.email` is
violated, with `WriteFailure` for other backend errors; otherwise inserts
the record and returns the generated identifier as a string. -/
def create_user_doc (db : Option Store) (u : UserIn) : Except StoreErr (String × Store) :=
  match db with
  | none => .error .storeUnavailable
  | some st =>
    match st.writeFault with
    | some msg => .error (.writeFailure msg)
    | none =>
      if st.users.any (fun v => v.email == u.email) then .error .duplicateKey
      else
        .ok (toString st.nextId,
          { st with
            users := st.users ++
              [⟨st.nextId, u.name, u.email, u.password_hash, u.major, u.year, u.avatar⟩],
            nextId := st.nextId + 1 })

/-- Modelled from the spec: `createDocument("course", record)` — absent the
`database` module's code.  The `course` collection has no unique index, so
`DuplicateKey` cannot arise. -/
def create_course_doc (db : Option Store) (code title : String)
    (instructor : Option String) (credits : Option Int) (owner_email : String) :
    Except StoreErr (String × Store) :=
  match db with
  | none => .error .storeUnavailable
  | some st =>
    match st.writeFault with
    | some msg => .error (.writeFailure msg)
    | none =>
      .ok (toString st.nextId,
        { st with
          courses := st.courses ++ [⟨st.nextId, code, title, instructor, credits, owner_email⟩],
          nextId := st.nextId + 1 })

/-- Modelled from the spec: `createDocument("scheduleentry", record)` —
absent the `database` module's code.  No unique index on this collection. -/
def create_sched_doc (db : Option Store) (owner_email title day start_time end_time : String)
    (location notes color : Option String) : Except StoreErr (String × Store) :=
  match db with
  | none => .error .storeUnavailable
  | some st =>
    match st.writeFault with
    | some msg => .error (.writeFailure msg)
    | none =>
      .ok (toString st.nextId,
        { st with
          schedules := st.schedules ++
            [⟨st.nextId, owner_email, title, day, start_time, end_time, location, notes, color⟩],
          nextId := st.nextId + 1 })

/-- Modelled from the spec: `getDocuments("course", filter)` — absent the
`database` module's code.  Returns matching records in store-native order,
or fails with `StoreUnavailable`/`ReadFailure`. -/
def get_course_docs (db : Option Store) (owner : String) : Except StoreErr (List CourseDoc) :=
  match db with
  | none => .error .storeUnavailable
  | some st =>
    match st.readFault with
    | some msg => .error (.readFailure msg)
    | none => .ok (st.courses.filter (fun c => c.owner_email == owner))

/-- Modelled from the spec: `getDocuments("scheduleentry", filter)` — absent
the `database` module's code. -/
def get_sched_docs (db : Option Store) (owner : String) : Except StoreErr (List SchedDoc) :=
  match db with
  | none => .error .storeUnavailable
  | some st =>
    match st.readFault with
    | some msg => .error (.readFailure msg)
    | none => .ok (st.schedules.filter (fun s => s.owner_email == owner))

/-- Modelled from the spec: `getDocuments("announcement", filter, limit=5)` —
absent the `database` module's code.  Applies the limit after the filter, in
store-native order. -/
def get_ann_docs (db : Option Store) : Except StoreErr (List AnnDoc) :=
  match db with
  | none => .error .storeUnavailable
  | some st =>
    match st.readFault with
    | some msg => .error (.readFailure msg)
    | none => .ok ((st.announcements.filter (fun a => a.visible)).take 5)

/-- `db["user"].find_one(filter)` (pymongo): the first stored user whose
email matches, in store-native order. -/
def find_one_user (st : Store) (email : String) : Option UserDoc :=
  st.users.find? (fun u => u.email == email)

/-! ## Endpoint handlers (`main.py`) -/

/-- The body of `POST /api/register` (`main.py` RegisterPayload). -/
structure RegisterPayload where
  name : String
  email : String
  password : String
  major : Option String
  year : Option String
deriving DecidableEq, Repr

/-- The User record `register_user` builds from its payload before the store
call, with the password digested (`main.py` lines 53-59). -/
def mkUserIn (p : RegisterPayload) : UserIn :=
  ⟨p.name, p.email, hash_password p.password, p.major, p.year, none⟩

/-- `main.py` lines 48-67, `register_user`: reject with 503 when `db` is
`None`; build the User record (whose model validation, failing, raises out of
the handler and surfaces as the framework's 500 Internal Server Error before
any store call); insert it, mapping `DuplicateKeyError` to 400 "Email already
registered" and any other exception to 500 with `str(e)` as detail.  Returns
the response and the post-state of the store. -/
def register_user (db : Option Store) (p : RegisterPayload) :
    Except HErr (List (String × JVal)) × Option Store :=
  match db with
  | none => (.error ⟨503, "Database not available"⟩, db)
  | some st =>
    if validUserModel (mkUserIn p) then
      match create_user_doc (some st) (mkUserIn p) with
      | .ok (uid, st2) =>
          (.ok [("message", JVal.str "Registered"), ("id", JVal.str uid)], some st2)
      | .error .duplicateKey => (.error ⟨400, "Email already registered"⟩, some st)
      | .error e => (.error ⟨500, storeErrMsg e⟩, some st)
    else (.error ⟨500, "Internal Server Error"⟩, some st)

/-- The `POST /api/register` endpoint including FastAPI's validation of the
`RegisterPayload` model (`email: EmailStr`), which rejects with a 422
client-input error before the handler runs. -/
def register_endpoint (db : Option Store) (p : RegisterPayload) :
    Except HErr (List (String × JVal)) × Option Store :=
  if isValidEmail p.email then register_user db p
  else (.error ⟨422, "value is not a valid email address"⟩, db)

/-- A successful login response: message, demo token, and the profile dict. -/
structure LoginResp where
  message : String
  token : String
  profile : List (String × JVal)
deriving DecidableEq, Repr

/-- `main.py` lines 75-98, `login`: 503 when `db` is `None`; look the user up
by email; 401 "Invalid credentials" when absent, and the same 401 when the
stored `password_hash` differs from `hash_password(password)`; on success the
token is `hash_password(email)[:32]` and the profile dict holds name, email,
major, year, avatar. -/
def login (db : Option Store) (email password : String) : Except HErr LoginResp :=
  match db with
  | none => .error ⟨503, "Database not available"⟩
  | some st =>
    match find_one_user st email with
    | none => .error ⟨401, "Invalid credentials"⟩
    | some user =>
      if user.password_hash == hash_password password then
        .ok ⟨"Logged in", (hash_password email).take 32,
          [("name", JVal.str user.name), ("email", JVal.str user.email),
           ("major", optStr user.major), ("year", optStr user.year),
           ("avatar", optStr user.avatar)]⟩
      else .error ⟨401, "Invalid credentials"⟩

/-- The body of `PUT /api/profile/{email}` (`main.py` UpdateProfile model):
all fields optional, no constraints. -/
structure UpdatePayload where
  name : Option String
  major : Option String
  year : Option String
  avatar : Option String
deriving DecidableEq, Repr

/-- The `$set` document `{k: v for k, v in payload if v is not None}` applied
to one user document: provided fields overwrite, omitted/null fields keep
their stored values; email and password_hash are not in the payload model and
are never touched. -/
def applyUpdate (p : UpdatePayload) (u : UserDoc) : UserDoc :=
  { u with
    name := match p.name with | some v => v | none => u.name
    major := match p.major with | some v => some v | none => u.major
    year := match p.year with | some v => some v | none => u.year
    avatar := match p.avatar with | some v => some v | none => u.avatar }

/-- `db["user"].update_one(filter, set)` (pymongo) on the successful path:
update the first matching document only; matching nothing is a no-op.  The
store's rejection of an empty `$set` document raises instead of updating and
is modelled at the call site in `update_profile`. -/
def updateFirstUser (email : String) (p : UpdatePayload) : List UserDoc → List UserDoc
  | [] => []
  | u :: rest =>
      if u.email == email then applyUpdate p u :: rest
      else u :: updateFirstUser email p rest

/-- The store after a successful `update_one` on the `user` collection. -/
def update_one_user (st : Store) (email : String) (p : UpdatePayload) : Store :=
  { st with users := updateFirstUser email p st.users }

/-- Whether `update_data = {k: v for k, v in payload.model_dump().items() if
v is not None}` (main.py line 114) is nonempty, i.e. the `$set` document
sent to the store carries at least one field. -/
def hasSetField (p : UpdatePayload) : Bool :=
  p.name.isSome || p.major.isSome || p.year.isSome || p.avatar.isSome

/-- `find_one(filter, projection with password_hash excluded)` followed by
`_id` stringification: every stored field except `password_hash`. -/
def profileNoHash (u : UserDoc) : List (String × JVal) :=
  [("_id", JVal.str (toString u.oid)), ("name", JVal.str u.name),
   ("email", JVal.str u.email), ("major", optStr u.major),
   ("year", optStr u.year), ("avatar", optStr u.avatar)]

/-- `main.py` lines 109-120, `update_profile`: 503 when `db` is `None`.
When every payload field is omitted or null, line 115 sends `{"$set": {}}`,
which MongoDB rejects with a WriteError ("'$set' is empty"); `update_profile`
has no try block, so the exception surfaces as the framework's generic 500
with the store unchanged and the lookup never runs.  Otherwise apply
`update_one` first, then look the user up in the updated store, and only then
reject with 404 "User not found" when absent; on success return the profile
with `password_hash` projected away and `_id` stringified. -/
def update_profile (db : Option Store) (email : String) (p : UpdatePayload) :
    Except HErr (List (String × JVal)) × Option Store :=
  match db with
  | none => (.error ⟨503, "Database not available"⟩, db)
  | some st =>
    if hasSetField p then
      let st2 := update_one_user st email p
      match find_one_user st2 email with
      | none => (.error ⟨404, "User not found"⟩, some st2)
      | some user => (.ok (profileNoHash user), some st2)
    else (.error ⟨500, "Internal Server Error"⟩, some st)

/-- The body of `POST /api/courses` (`main.py` CoursePayload): note that
`credits` carries no bounds here — the Course model of `schemas.py` is not
applied on this path. -/
structure CoursePayload where
  code : String
  title : String
  instructor : Option String
  credits : Option Int
  owner_email : String
deriving DecidableEq, Repr

/-- `main.py` lines 132-138, `create_course`: insert the payload dump and
return the new identifier; any exception maps to 500 with `str(e)`. -/
def create_course (db : Option Store) (p : CoursePayload) :
    Except HErr (List (String × JVal)) × Option Store :=
  match create_course_doc db p.code p.title p.instructor p.credits p.owner_email with
  | .ok (cid, st2) => (.ok [("id", JVal.str cid)], some st2)
  | .error e => (.error ⟨500, storeErrMsg e⟩, db)

/-- The `POST /api/courses` endpoint including FastAPI's validation of the
`CoursePayload` model (`owner_email: EmailStr`), rejecting with 422 before
the handler runs. -/
def create_course_endpoint (db : Option Store) (p : CoursePayload) :
    Except HErr (List (String × JVal)) × Option Store :=
  if isValidEmail p.owner_email then create_course db p
  else (.error ⟨422, "value is not a valid email address"⟩, db)

/-- The rendering of a stored course into a response dict after the `_id`
stringification loop. -/
def courseDict (c : CourseDoc) : List (String × JVal) :=
  [("_id", JVal.str (toString c.oid)), ("code", JVal.str c.code),
   ("title", JVal.str c.title), ("instructor", optStr c.instructor),
   ("credits", optInt c.credits), ("owner_email", JVal.str c.owner_email)]

/-- `main.py` lines 141-149, `list_courses`: fetch the owner's courses,
stringify identifiers; any exception maps to 500 with `str(e)`. -/
def list_courses (db : Option Store) (owner : String) :
    Except HErr (List (List (String × JVal))) :=
  match get_course_docs db owner with
  | .ok items => .ok (items.map courseDict)
  | .error e => .error ⟨500, storeErrMsg e⟩

/-- The body of `POST /api/schedule` (`main.py` SchedulePayload). -/
structure SchedPayload where
  owner_email : String
  title : String
  day : String
  start_time : String
  end_time : String
  location : Option String
  notes : Option String
  color : Option String
deriving DecidableEq, Repr

/-- `main.py` lines 164-170, `add_schedule_entry`: insert the payload dump
and return the new identifier; any exception maps to 500 with `str(e)`. -/
def add_schedule_entry (db : Option Store) (p : SchedPayload) :
    Except HErr (List (String × JVal)) × Option Store :=
  match create_sched_doc db p.owner_email p.title p.day p.start_time p.end_time
      p.location p.notes p.color with
  | .ok (sid, st2) => (.ok [("id", JVal.str sid)], some st2)
  | .error e => (.error ⟨500, storeErrMsg e⟩, db)

/-- The `POST /api/schedule` endpoint including FastAPI's validation of the
`SchedulePayload` model (`owner_email: EmailStr`). -/
def add_schedule_endpoint (db : Option Store) (p : SchedPayload) :
    Except HErr (List (String × JVal)) × Option Store :=
  if isValidEmail p.owner_email then add_schedule_entry db p
  else (.error ⟨422, "value is not a valid email address"⟩, db)

/-- The rendering of a stored schedule entry into a response dict after the
`_id` stringification loop. -/
def schedDict (s : SchedDoc) : List (String × JVal) :=
  [("_id", JVal.str (toString s.oid)), ("owner_email", JVal.str s.owner_email),
   ("title", JVal.str s.title), ("day", JVal.str s.day),
   ("start_time", JVal.str s.start_time), ("end_time", JVal.str s.end_time),
   ("location", optStr s.location), ("notes", optStr s.notes),
   ("color", optStr s.color)]

/-- `main.py` lines 173-181, `get_schedule`: fetch the owner's schedule
entries, stringify identifiers; any exception maps to 500 with `str(e)`. -/
def get_schedule (db : Option Store) (owner : String) :
    Except HErr (List (List (String × JVal))) :=
  match get_sched_docs db owner with
  | .ok items => .ok (items.map schedDict)
  | .error e => .error ⟨500, storeErrMsg e⟩

/-- The rendering of a stored announcement into a response dict. -/
def annDict (a : AnnDoc) : List (String × JVal) :=
  [("_id", JVal.str (toString a.oid)), ("title", JVal.str a.title),
   ("body", JVal.str a.body), ("visible", JVal.boolVal a.visible)]

/-- `main.py` lines 194-197: the static two-item fallback announcement
list returned when the store path raises. -/
def fallbackAnns : List (List (String × JVal)) :=
  [[("title", JVal.str "Welcome to Campus Scheduler"),
    ("body", JVal.str "Plan classes, labs, study sessions in one place.")],
   [("title", JVal.str "Tip"),
    ("body", JVal.str "Drag across the grid to create a block of study time.")]]

/-- `main.py` lines 185-197, `get_announcements`: fetch up to five visible
announcements; on any exception return the static fallback instead of an
error. -/
def get_announcements (db : Option Store) : List (List (String × JVal)) :=
  match get_ann_docs db with
  | .ok items => items.map annDict
  | .error _ => fallbackAnns

/-! ## Helper lemmas -/

/-- The SHA-256 embedding agrees with FIPS 180-4 on the standard "abc" test
vector. -/
theorem sha256_test_vector_abc :
    sha256Hex (utf8Bytes "abc")
      = "ba7816bf8f01cfea414140de5dae2223b00361a396177a9cb410ff61f20015ad" := by decide

/-- The SHA-256 embedding agrees with FIPS 180-4 on the empty-message test
vector. -/
theorem sha256_test_vector_empty :
    hash_password ""
      = "e3b0c44298fc1c149afbf4c8996fb92427ae41e4649b934ca495991b7852b855" := by decide

/-- A user returned by `find_one_user` is stored and has the sought email. -/
theorem find_one_user_mem {st : Store} {e : String} {u : UserDoc}
    (h : find_one_user st e = some u) : u ∈ st.users ∧ u.email = e := by
  refine ⟨List.mem_of_find?_eq_some h, ?_⟩
  have := List.find?_some h
  simpa using this

/-- With pairwise-distinct emails, `find?` returns exactly the stored user
with the sought email. -/
theorem find_email_of_mem {l : List UserDoc} {u : UserDoc} {e : String}
    (hp : l.Pairwise (fun a b => a.email ≠ b.email))
    (hm : u ∈ l) (he : u.email = e) :
    l.find? (fun v => v.email == e) = some u := by
  induction l with
  | nil => cases hm
  | cons a t ih =>
    rcases List.mem_cons.mp hm with rfl | hmt
    · simp [List.find?_cons, he]
    · have ha : ¬ (a.email = e) := by
        have h1 := (List.pairwise_cons.mp hp).1 u hmt
        simp [he] at h1
        simpa [he] using h1
      simp [List.find?_cons, ha, ih (List.pairwise_cons.mp hp).2 hmt]

/-- `find?` by email fails exactly when no stored user has the email. -/
theorem find_email_eq_none {l : List UserDoc} {e : String} :
    l.find? (fun v => v.email == e) = none ↔ ∀ u ∈ l, u.email ≠ e := by
  simp [List.find?_eq_none]

/-- `updateFirstUser` is the identity when no stored user has the email. -/
theorem updateFirstUser_no_match {l : List UserDoc} {e : String} {p : UpdatePayload}
    (h : ∀ u ∈ l, u.email ≠ e) : updateFirstUser e p l = l := by
  induction l with
  | nil => rfl
  | cons a t ih =>
    have ha : ¬ (a.email = e) := h a (List.mem_cons_self a t)
    simp [updateFirstUser, ha, ih (fun u hu => h u (List.mem_cons_of_mem a hu))]

/-- `applyUpdate` never changes the email. -/
theorem applyUpdate_email (p : UpdatePayload) (u : UserDoc) :
    (applyUpdate p u).email = u.email := rfl

/-- `applyUpdate` never changes the stored password hash. -/
theorem applyUpdate_password_hash (p : UpdatePayload) (u : UserDoc) :
    (applyUpdate p u).password_hash = u.password_hash := rfl

/-- After `updateFirstUser`, `find?` by the same email returns the updated
version of the user it returned before. -/
theorem find_after_update {l : List UserDoc} {e : String} {p : UpdatePayload} {u : UserDoc}
    (h : l.find? (fun v => v.email == e) = some u) :
    (updateFirstUser e p l).find? (fun v => v.email == e) = some (applyUpdate p u) := by
  induction l with
  | nil => simp [List.find?] at h
  | cons a t ih =>
    by_cases ha : a.email = e
    · have hu : a = u := by
        have := List.find?_cons_of_pos (p := fun v => v.email == e) t (by simpa using ha)
        rw [this] at h
        exact Option.some.inj h
      subst hu
      simp [updateFirstUser, ha, List.find?_cons, applyUpdate_email, ha]
    · have hrec : t.find? (fun v => v.email == e) = some u := by
        have := List.find?_cons_of_neg (p := fun v => v.email == e) t (by simpa using ha)
        rwa [this] at h
      simp [updateFirstUser, ha, List.find?_cons, ih hrec]

/-- A successful user insert appends exactly the built record and returns the
stringified next identifier. -/
theorem create_user_doc_ok {st : Store} {u : UserIn} {uid : String} {st2 : Store}
    (h : create_user_doc (some st) u = Except.ok (uid, st2)) :
    st2.users = st.users ++
      [⟨st.nextId, u.name, u.email, u.password_hash, u.major, u.year, u.avatar⟩] ∧
    uid = toString st.nextId := by
  cases hwf : st.writeFault with
  | some msg => simp [create_user_doc, hwf] at h
  | none =>
    by_cases hdup : st.users.any (fun v => v.email == u.email)
    · simp [create_user_doc, hwf, hdup] at h
    · simp [create_user_doc, hwf, hdup] at h
      obtain ⟨h1, h2⟩ := h
      rw [← h2]
      exact ⟨rfl, h1.symm⟩

/-- An update payload with no `$set` field applies no change to any user. -/
theorem applyUpdate_empty {p : UpdatePayload} (h : hasSetField p = false)
    (u : UserDoc) : applyUpdate p u = u := by
  obtain ⟨pn, pm, py, pa⟩ := p
  cases pn <;> cases pm <;> cases py <;> cases pa <;>
    simp [hasSetField] at h
  rfl

/-- An update payload with no `$set` field leaves the user list unchanged. -/
theorem updateFirstUser_empty {p : UpdatePayload} (h : hasSetField p = false)
    (email : String) (l : List UserDoc) : updateFirstUser email p l = l := by
  induction l with
  | nil => rfl
  | cons u rest ih =>
    by_cases hu : u.email = email
    · simp [updateFirstUser, hu, applyUpdate_empty h]
    · simp [updateFirstUser, hu, ih]

/-- An update payload with no `$set` field leaves the store unchanged. -/
theorem update_one_user_empty {p : UpdatePayload} (h : hasSetField p = false)
    (st : Store) (email : String) : update_one_user st email p = st := by
  unfold update_one_user
  rw [updateFirstUser_empty h]

/-! ## Concrete states used by the witnesses -/

/-- A concrete stored user whose password digest matches password "pw". -/
def wUser : UserDoc := ⟨0, "Alice", "a@b.co", hash_password "pw", none, none, none⟩

/-- A concrete one-user store with no injected faults. -/
def wStore : Store := ⟨[wUser], [], [], [], 1, none, none⟩

/-- The login response for `wStore` with email "a@b.co" and password "pw". -/
def wLoginResp : LoginResp :=
  ⟨"Logged in", (hash_password "a@b.co").take 32,
   [("name", JVal.str "Alice"), ("email", JVal.str "a@b.co"),
    ("major", JVal.null), ("year", JVal.null), ("avatar", JVal.null)]⟩

/-- A concrete partial profile update carrying only a major. -/
def wPayload : UpdatePayload := ⟨none, some "CS", none, none⟩

/-- The all-omitted update payload: its `$set` document is empty. -/
def wEmptyPayload : UpdatePayload := ⟨none, none, none, none⟩

/-- An empty, fault-free store. -/
def wEmptyStore : Store := ⟨[], [], [], [], 0, none, none⟩

/-! ## Claims -/

/-- C1: Login succeeds iff a stored user with the supplied email exists whose
stored `password_hash` equals the digest of the supplied password, and the
missing-user and wrong-password failures raise the identical
401 "Invalid credentials" error. -/
theorem C1_login_iff_and_uniform_401 (st : Store) (email password : String)
    (hdist : st.users.Pairwise (fun a b => a.email ≠ b.email)) :
    ((∃ r, login (some st) email password = Except.ok r) ↔
      ∃ u ∈ st.users, u.email = email ∧ u.password_hash = hash_password password) ∧
    ((∀ u ∈ st.users, u.email ≠ email) →
      login (some st) email password = Except.error ⟨401, "Invalid credentials"⟩) ∧
    (∀ u, find_one_user st email = some u → u.password_hash ≠ hash_password password →
      login (some st) email password = Except.error ⟨401, "Invalid credentials"⟩) := by
  refine ⟨⟨?_, ?_⟩, ?_, ?_⟩
  · rintro ⟨r, hr⟩
    cases hfind : find_one_user st email with
    | none => simp [login, hfind] at hr
    | some u =>
      by_cases hpw : u.password_hash = hash_password password
      · obtain ⟨hm, he⟩ := find_one_user_mem hfind
        exact ⟨u, hm, he, hpw⟩
      · simp [login, hfind, hpw] at hr
  · rintro ⟨u, hm, he, hpw⟩
    have hfind : find_one_user st email = some u := find_email_of_mem hdist hm he
    refine ⟨⟨"Logged in", (hash_password email).take 32,
      [("name", JVal.str u.name), ("email", JVal.str u.email), ("major", optStr u.major),
       ("year", optStr u.year), ("avatar", optStr u.avatar)]⟩, ?_⟩
    simp [login, hfind, hpw]
  · intro habsent
    have hfind : find_one_user st email = none := by
      unfold find_one_user
      exact find_email_eq_none.mpr habsent
    simp [login, hfind]
  · intro u hfind hpw
    simp [login, hfind, hpw]

/-- Witness for C1 at a concrete store: the distinct-emails hypothesis holds
and login succeeds for the stored user. -/
theorem C1_witness :
    (wStore.users.Pairwise (fun a b => a.email ≠ b.email)) ∧
    (∃ r, login (some wStore) "a@b.co" "pw" = Except.ok r) := by
  have hp : wStore.users.Pairwise (fun a b => a.email ≠ b.email) := by
    simp [wStore]
  exact ⟨hp, (C1_login_iff_and_uniform_401 wStore "a@b.co" "pw" hp).1.mpr
    ⟨wUser, by simp [wStore], rfl, rfl⟩⟩

/-- C2: every successful login's token is the first 32 hex characters of the
SHA-256 digest of the UTF-8 email; Register stores the password digest under
the same hash function; hence the token depends on the email alone. -/
theorem C2_token_is_email_digest_prefix :
    (∀ db email password r, login db email password = Except.ok r →
      r.token = (sha256Hex (utf8Bytes email)).take 32) ∧
    (∀ st p resp st2, register_user (some st) p = (Except.ok resp, some st2) →
      ∃ doc, st2.users = st.users ++ [doc] ∧ doc.email = p.email ∧
        doc.password_hash = sha256Hex (utf8Bytes p.password)) ∧
    (∀ db1 db2 email p1 p2 r1 r2, login db1 email p1 = Except.ok r1 →
      login db2 email p2 = Except.ok r2 → r1.token = r2.token) := by
  have htok : ∀ db email password r, login db email password = Except.ok r →
      r.token = (sha256Hex (utf8Bytes email)).take 32 := by
    intro db email password r hr
    cases db with
    | none => simp [login] at hr
    | some st =>
      cases hfind : find_one_user st email with
      | none => simp [login, hfind] at hr
      | some u =>
        by_cases hpw : u.password_hash = hash_password password
        · simp [login, hfind, hpw] at hr
          rw [← hr]
          simp [hash_password]
        · simp [login, hfind, hpw] at hr
  refine ⟨htok, ?_, ?_⟩
  · intro st p resp st2 hreg
    by_cases hv : validUserModel (mkUserIn p)
    · cases hc : create_user_doc (some st) (mkUserIn p) with
      | ok pr =>
        obtain ⟨uid, st'⟩ := pr
        have h2 : st2 = st' := by
          simp [register_user, hv, hc] at hreg
          exact hreg.2.symm
        have := create_user_doc_ok hc
        exact ⟨_, h2 ▸ this.1, rfl, rfl⟩
      | error e => cases e <;> simp [register_user, hv, hc] at hreg
    · simp [register_user, hv] at hreg
  · intro db1 db2 email p1 p2 r1 r2 h1 h2
    rw [htok db1 email p1 r1 h1, htok db2 email p2 r2 h2]

/-- Witness for C2 at a concrete store: login succeeds and its token is the
32-character digest prefix of the email. -/
theorem C2_witness :
    login (some wStore) "a@b.co" "pw" = Except.ok wLoginResp ∧
    wLoginResp.token = (sha256Hex (utf8Bytes "a@b.co")).take 32 := by
  have h : login (some wStore) "a@b.co" "pw" = Except.ok wLoginResp := rfl
  exact ⟨h, C2_token_is_email_digest_prefix.1 (some wStore) "a@b.co" "pw" wLoginResp h⟩

/-- C3: the login profile's keys are exactly name, email, major, year, avatar,
and the profile returned by UpdateProfile never contains `password_hash`. -/
theorem C3_no_password_hash_in_responses :
    (∀ db email password r, login db email password = Except.ok r →
      r.profile.map Prod.fst = ["name", "email", "major", "year", "avatar"]) ∧
    (∀ st email p r db2, update_profile (some st) email p = (Except.ok r, db2) →
      r.map Prod.fst = ["_id", "name", "email", "major", "year", "avatar"] ∧
      "password_hash" ∉ r.map Prod.fst) := by
  constructor
  · intro db email password r hr
    cases db with
    | none => simp [login] at hr
    | some st =>
      cases hfind : find_one_user st email with
      | none => simp [login, hfind] at hr
      | some u =>
        by_cases hpw : u.password_hash = hash_password password
        · simp [login, hfind, hpw] at hr
          rw [← hr]
          simp
        · simp [login, hfind, hpw] at hr
  · intro st email p r db2 hup
    by_cases hset : hasSetField p = true
    · cases hfind : find_one_user (update_one_user st email p) email with
      | none => simp [update_profile, hset, hfind] at hup
      | some u =>
        have hr : r = profileNoHash u := by
          simp [update_profile, hset, hfind] at hup
          exact hup.1.symm
        subst hr
        refine ⟨rfl, by simp [profileNoHash]⟩
    · have hf : hasSetField p = false := by simpa using hset
      simp [update_profile, hf] at hup

/-- Witness for C3 at a concrete store: a successful login and a successful
profile update, with the stated key lists. -/
theorem C3_witness :
    wLoginResp.profile.map Prod.fst = ["name", "email", "major", "year", "avatar"] ∧
    "password_hash" ∉ (profileNoHash (applyUpdate wPayload wUser)).map Prod.fst := by
  have h1 : login (some wStore) "a@b.co" "pw" = Except.ok wLoginResp := rfl
  have h2 : update_profile (some wStore) "a@b.co" wPayload
      = (Except.ok (profileNoHash (applyUpdate wPayload wUser)),
         some (update_one_user wStore "a@b.co" wPayload)) := rfl
  exact ⟨C3_no_password_hash_in_responses.1 _ "a@b.co" "pw" _ h1,
         (C3_no_password_hash_in_responses.2 _ "a@b.co" _ _ _ h2).2⟩

/-- C4: UpdateProfile merges exactly the provided non-null fields into the
stored user found by email: the post-state is the one-user update of the
store, the user found afterwards is the merged record, provided fields
overwrite, omitted or null fields keep their stored values, and the email,
password hash and identifier are never modified. -/
theorem C4_partial_merge (st : Store) (email : String) (p : UpdatePayload) :
    (update_profile (some st) email p).2 = some (update_one_user st email p) ∧
    (∀ u, find_one_user st email = some u →
      find_one_user (update_one_user st email p) email = some (applyUpdate p u) ∧
      applyUpdate p u = ⟨u.oid, p.name.getD u.name, u.email, u.password_hash,
        p.major.or u.major, p.year.or u.year, p.avatar.or u.avatar⟩) := by
  constructor
  · by_cases hset : hasSetField p = true
    · cases hfind : find_one_user (update_one_user st email p) email with
      | none => simp [update_profile, hset, hfind]
      | some u => simp [update_profile, hset, hfind]
    · have hf : hasSetField p = false := by simpa using hset
      simp [update_profile, hf, update_one_user_empty hf]
  · intro u hu
    constructor
    · exact find_after_update hu
    · cases hn : p.name <;> cases hm : p.major <;> cases hy : p.year <;> cases ha : p.avatar <;>
        simp [applyUpdate, hn, hm, hy, ha]

/-- Witness for C4 at a concrete store: merging only a major onto a user
named "Alice" leaves the name (and password hash) unchanged and sets the
major. -/
theorem C4_witness :
    find_one_user wStore "a@b.co" = some wUser ∧
    find_one_user (update_one_user wStore "a@b.co" wPayload) "a@b.co"
      = some (applyUpdate wPayload wUser) ∧
    (applyUpdate wPayload wUser).name = "Alice" ∧
    (applyUpdate wPayload wUser).major = some "CS" ∧
    (applyUpdate wPayload wUser).password_hash = wUser.password_hash := by
  have h := (C4_partial_merge wStore "a@b.co" wPayload).2 wUser rfl
  refine ⟨rfl, h.1, ?_, ?_, ?_⟩
  · rw [h.2]
    rfl
  · rw [h.2]
    rfl
  · rw [h.2]

/-- Counterexample to C5: with the all-omitted payload, the empty `$set`
document is rejected by the store and the uncaught error surfaces as the
framework's generic 500 before the lookup runs, so on a store without the
user the result is that 500 — not the claimed 404 — although no user with
the email exists; the store is left unchanged. -/
theorem C5_counterexample :
    (∀ u ∈ wEmptyStore.users, u.email ≠ "x@y.co") ∧
    update_profile (some wEmptyStore) "x@y.co" wEmptyPayload
      = (Except.error ⟨500, "Internal Server Error"⟩, some wEmptyStore) ∧
    (update_profile (some wEmptyStore) "x@y.co" wEmptyPayload).1
      ≠ Except.error ⟨404, "User not found"⟩ ∧
    update_profile (some wStore) "a@b.co" wEmptyPayload
      = (Except.error ⟨500, "Internal Server Error"⟩, some wStore) := by
  refine ⟨by simp [wEmptyStore], rfl, ?_, rfl⟩
  intro h
  have h2 : (⟨500, "Internal Server Error"⟩ : HErr) = ⟨404, "User not found"⟩ :=
    Except.error.inj h
  simp at h2

/-- C5 amended: for update payloads carrying at least one non-null field,
UpdateProfile rejects with 404 exactly when no stored user has the email;
for a nonexistent email the attempted update leaves the store unchanged; and
the success response is computed from the already-updated store (the lookup
happens after the update).  With the all-omitted payload the store rejects
the empty `$set` and the endpoint fails with the framework's 500 regardless
of whether the user exists. -/
theorem C5_update_then_check (st : Store) (email : String) (p : UpdatePayload)
    (hset : hasSetField p = true) :
    ((update_profile (some st) email p).1 = Except.error ⟨404, "User not found"⟩ ↔
      ∀ u ∈ st.users, u.email ≠ email) ∧
    ((∀ u ∈ st.users, u.email ≠ email) → (update_profile (some st) email p).2 = some st) ∧
    (∀ u, find_one_user st email = some u →
      (update_profile (some st) email p).1
        = Except.ok (profileNoHash (applyUpdate p u))) := by
  have hok : ∀ u, find_one_user st email = some u →
      (update_profile (some st) email p).1
        = Except.ok (profileNoHash (applyUpdate p u)) := by
    intro u hu
    have h2 := find_after_update (p := p) hu
    simp [update_profile, hset, update_one_user] at h2 ⊢
    simp [find_one_user, update_one_user] at h2 ⊢
    rw [h2]
  have hnoop : (∀ u ∈ st.users, u.email ≠ email) → update_one_user st email p = st := by
    intro habs
    unfold update_one_user
    rw [updateFirstUser_no_match habs]
  refine ⟨⟨?_, ?_⟩, ?_, hok⟩
  · intro h404
    by_contra hex
    push_neg at hex
    obtain ⟨u, hm, he⟩ := hex
    have hne : ¬ (find_one_user st email = none) := by
      unfold find_one_user
      rw [find_email_eq_none]
      push_neg
      exact ⟨u, hm, he⟩
    obtain ⟨u0, hu0⟩ := Option.ne_none_iff_exists'.mp hne
    rw [hok u0 hu0] at h404
    cases h404
  · intro habs
    have h1 : find_one_user (update_one_user st email p) email = none := by
      rw [hnoop habs]
      unfold find_one_user
      exact find_email_eq_none.mpr habs
    simp [update_profile, hset, h1]
  · intro habs
    have h1 : find_one_user (update_one_user st email p) email = none := by
      rw [hnoop habs]
      unfold find_one_user
      exact find_email_eq_none.mpr habs
    simp [update_profile, hset, hnoop habs]
    rw [hnoop habs] at h1
    rw [show find_one_user st email = none from h1]

/-- Witness for the amended C5 at a concrete store: the payload carries a
field, updating a nonexistent email yields 404 and leaves the store
unchanged, and updating the stored email succeeds with the merged profile. -/
theorem C5_witness :
    hasSetField wPayload = true ∧
    (update_profile (some wStore) "x@y.co" wPayload).1
      = Except.error ⟨404, "User not found"⟩ ∧
    (update_profile (some wStore) "x@y.co" wPayload).2 = some wStore ∧
    (update_profile (some wStore) "a@b.co" wPayload).1
      = Except.ok (profileNoHash (applyUpdate wPayload wUser)) := by
  have habs : ∀ u ∈ wStore.users, u.email ≠ "x@y.co" := by
    simp [wStore, wUser]
  exact ⟨rfl,
         (C5_update_then_check wStore "x@y.co" wPayload rfl).1.mpr habs,
         (C5_update_then_check wStore "x@y.co" wPayload rfl).2.1 habs,
         (C5_update_then_check wStore "a@b.co" wPayload rfl).2.2 wUser rfl⟩

/-- C6: Register's outcome-to-error mapping: 503 before any store call when
the connection is absent; an existing user with the same email maps the
duplicate-key failure to 400 "Email already registered"; any other backend
write failure maps to 500 carrying its message; otherwise the new identifier
is returned and the user record appended. -/
theorem C6_register_error_mapping :
    (∀ p, register_user none p = (Except.error ⟨503, "Database not available"⟩, none)) ∧
    (∀ st p, validUserModel (mkUserIn p) = true → st.writeFault = none →
      (∃ u ∈ st.users, u.email = p.email) →
      register_user (some st) p = (Except.error ⟨400, "Email already registered"⟩, some st)) ∧
    (∀ st p msg, validUserModel (mkUserIn p) = true → st.writeFault = some msg →
      register_user (some st) p = (Except.error ⟨500, msg⟩, some st)) ∧
    (∀ st p, validUserModel (mkUserIn p) = true → st.writeFault = none →
      (∀ u ∈ st.users, u.email ≠ p.email) →
      register_user (some st) p =
        (Except.ok [("message", JVal.str "Registered"),
                    ("id", JVal.str (toString st.nextId))],
         some { st with
            users := st.users ++ [⟨st.nextId, p.name, p.email,
              hash_password p.password, p.major, p.year, none⟩],
            nextId := st.nextId + 1 })) := by
  refine ⟨fun p => rfl, ?_, ?_, ?_⟩
  · intro st p hv hwf hex
    have hdup : st.users.any (fun v => v.email == (mkUserIn p).email) = true := by
      rw [List.any_eq_true]
      obtain ⟨u, hm, he⟩ := hex
      exact ⟨u, hm, by simp [mkUserIn, he]⟩
    simp [register_user, hv, create_user_doc, hwf, hdup]
  · intro st p msg hv hwf
    simp [register_user, hv, create_user_doc, hwf, storeErrMsg]
  · intro st p hv hwf habs
    have hnex : ¬ ∃ u ∈ st.users, u.email = p.email := by
      push_neg
      exact habs
    simp only [mkUserIn] at hv
    simp [register_user, hv, create_user_doc, hwf, mkUserIn, hnex]

/-- The registration payload used by the C6 witness. -/
def wRegPayload : RegisterPayload := ⟨"Alice", "a@b.co", "pw", none, none⟩

/-- Witness for C6 at concrete states: the payload passes model validation,
registering without a connection yields 503 with the store untouched, and
registering an already-stored email yields 400. -/
theorem C6_witness :
    validUserModel (mkUserIn wRegPayload) = true ∧
    register_user none wRegPayload = (Except.error ⟨503, "Database not available"⟩, none) ∧
    register_user (some wStore) wRegPayload
      = (Except.error ⟨400, "Email already registered"⟩, some wStore) := by
  have hv : validUserModel (mkUserIn wRegPayload) = true := by decide
  refine ⟨hv, C6_register_error_mapping.1 wRegPayload, ?_⟩
  exact C6_register_error_mapping.2.1 wStore wRegPayload hv rfl
    ⟨wUser, by simp [wStore], rfl⟩

/-- C7: the announcements endpoint never fails: with a working store it
returns at most five records, each rendered from a visible stored
announcement (exactly five when at least six visible ones are stored); with
the store unavailable, or on any read fault, it returns exactly the static
two-item fallback list, a fixed literal independent of store state. -/
theorem C7_announcements_degrade :
    (get_announcements none = fallbackAnns ∧ fallbackAnns.length = 2) ∧
    (∀ st msg, st.readFault = some msg → get_announcements (some st) = fallbackAnns) ∧
    (∀ st, st.readFault = none →
      (get_announcements (some st)).length ≤ 5 ∧
      ∀ d ∈ get_announcements (some st), ("visible", JVal.boolVal true) ∈ d) ∧
    (∀ st, st.readFault = none →
      6 ≤ (st.announcements.filter (fun a => a.visible)).length →
      (get_announcements (some st)).length = 5) := by
  refine ⟨⟨rfl, rfl⟩, ?_, ?_, ?_⟩
  · intro st msg hrf
    simp [get_announcements, get_ann_docs, hrf]
  · intro st hrf
    constructor
    · simp [get_announcements, get_ann_docs, hrf]
    · intro d hd
      simp only [get_announcements, get_ann_docs, hrf] at hd
      obtain ⟨a, hmem, hda⟩ := List.mem_map.mp hd
      have hvis2 : a.visible = true := by
        have := (List.mem_filter.mp (List.mem_of_mem_take hmem)).2
        simpa using this
      rw [← hda]
      simp [annDict, hvis2]
  · intro st hrf hsix
    simp [get_announcements, get_ann_docs, hrf]
    omega

/-- A concrete store holding six visible announcements. -/
def wAnnStore : Store :=
  ⟨[], [], [],
   [⟨0, "t0", "b0", true⟩, ⟨1, "t1", "b1", true⟩, ⟨2, "t2", "b2", true⟩,
    ⟨3, "t3", "b3", true⟩, ⟨4, "t4", "b4", true⟩, ⟨5, "t5", "b5", true⟩],
   6, none, none⟩

/-- Witness for C7 at concrete states: with no connection the fallback is
returned; with six visible stored announcements exactly five are returned. -/
theorem C7_witness :
    get_announcements none = fallbackAnns ∧
    (get_announcements (some wAnnStore)).length = 5 := by
  refine ⟨C7_announcements_degrade.1.1, ?_⟩
  exact C7_announcements_degrade.2.2.2 wAnnStore rfl (by decide)

/-- The malformed course payload of the C8 counterexample: credits outside
the 0..10 range declared by `schemas.py`. -/
def wBadCourse : CoursePayload := ⟨"MATH101", "Calc", none, some 11, "a@b.co"⟩

/-- Counterexample to C8: a Course payload with credits = 11, outside the
schema's 0..10 range, is not rejected as a client-input error: the create
endpoint accepts it, the store is changed, and the stored record carries
credits = 11. -/
theorem C8_counterexample :
    validCourseModel wBadCourse.credits wBadCourse.owner_email = false ∧
    (create_course_endpoint (some wEmptyStore) wBadCourse).1
      = Except.ok [("id", JVal.str "0")] ∧
    (create_course_endpoint (some wEmptyStore) wBadCourse).2
      = some { wEmptyStore with
          courses := [⟨0, "MATH101", "Calc", none, some 11, "a@b.co"⟩], nextId := 1 } ∧
    (create_course_endpoint (some wEmptyStore) wBadCourse).2 ≠ some wEmptyStore := by
  exact ⟨by decide, rfl, rfl, by decide⟩

/-- C8 amended: a syntactically invalid email in any entity write is rejected
with a 422 client-input error before any store call, leaving the store
untouched; a Register name length outside 2..80 is rejected before any store
call but surfaces as the framework's generic 500, not a client-input error;
and CreateCourse does not apply the schema's credits bound: any credits value
is accepted and stored. -/
theorem C8_validation_shortcircuit :
    (∀ db p, isValidEmail p.email = false →
      register_endpoint db p
        = (Except.error ⟨422, "value is not a valid email address"⟩, db)) ∧
    (∀ db p, isValidEmail p.owner_email = false →
      create_course_endpoint db p
        = (Except.error ⟨422, "value is not a valid email address"⟩, db)) ∧
    (∀ db p, isValidEmail p.owner_email = false →
      add_schedule_endpoint db p
        = (Except.error ⟨422, "value is not a valid email address"⟩, db)) ∧
    (∀ st p, isValidEmail p.email = true → p.name.length < 2 ∨ 80 < p.name.length →
      register_endpoint (some st) p
        = (Except.error ⟨500, "Internal Server Error"⟩, some st)) ∧
    (∀ st p, st.writeFault = none → isValidEmail p.owner_email = true →
      create_course_endpoint (some st) p
        = (Except.ok [("id", JVal.str (toString st.nextId))],
           some { st with
             courses := st.courses ++
               [⟨st.nextId, p.code, p.title, p.instructor, p.credits, p.owner_email⟩],
             nextId := st.nextId + 1 })) := by
  refine ⟨?_, ?_, ?_, ?_, ?_⟩
  · intro db p hem
    simp [register_endpoint, hem]
  · intro db p hem
    simp [create_course_endpoint, hem]
  · intro db p hem
    simp [add_schedule_endpoint, hem]
  · intro st p hem hlen
    have hv : validUserModel (mkUserIn p) = false := by
      simp [validUserModel, mkUserIn]
      intro h1 h2
      omega
    simp [register_endpoint, hem, register_user, hv]
  · intro st p hwf hem
    simp [create_course_endpoint, hem, create_course, create_course_doc, hwf]

/-- Witness for the amended C8 at concrete inputs: a malformed email is
rejected with 422 leaving the store untouched, and a one-character name is
rejected before any store call with the framework's 500. -/
theorem C8_witness :
    isValidEmail "nope" = false ∧
    register_endpoint (some wEmptyStore) ⟨"Alice", "nope", "pw", none, none⟩
      = (Except.error ⟨422, "value is not a valid email address"⟩, some wEmptyStore) ∧
    register_endpoint (some wEmptyStore) ⟨"A", "a@b.co", "pw", none, none⟩
      = (Except.error ⟨500, "Internal Server Error"⟩, some wEmptyStore) := by
  refine ⟨by decide, C8_validation_shortcircuit.1 _ _ (by decide), ?_⟩
  exact C8_validation_shortcircuit.2.2.2.1 wEmptyStore _ (by decide) (Or.inl (by decide))

/-- A 100-character backend exception message. -/
def wLongMsg : String :=
  "E11000 something went very wrong deep inside the backend while writing the course document today ok!"

/-- A well-formed course payload used by the C9 counterexample and witness. -/
def wCourse : CoursePayload := ⟨"MATH101", "Calc", none, some 3, "a@b.co"⟩

/-- A store whose backend raises an exception carrying a 100-character
message on every write. -/
def wFaultStore : Store := ⟨[], [], [], [], 0, some wLongMsg, none⟩

/-- Counterexample to C9: the boundary converts a backend exception into a
500 whose detail is the full exception message: a 100-character message
arrives with all 100 characters, so the detail is not a truncated message. -/
theorem C9_counterexample :
    (create_course (some wFaultStore) wCourse).1 = Except.error ⟨500, wLongMsg⟩ ∧
    wLongMsg.length = 100 ∧
    ¬ ((Except.error (α := List (String × JVal)) (⟨500, wLongMsg⟩ : HErr)
        = (create_course (some wFaultStore) wCourse).1) →
       (⟨500, wLongMsg⟩ : HErr).detail.length < wLongMsg.length) := by
  refine ⟨rfl, by decide, ?_⟩
  intro h
  exact absurd (h rfl) (by simp)

/-- C9 amended: backend exceptions raised inside the guarded store calls of
Register, CreateCourse, CreateScheduleEntry, ListCourses and ListSchedule are
caught and become a 500 error whose detail is exactly the exception's message
string, untruncated; only the message string is used, so stack traces never
appear. -/
theorem C9_boundary_500_full_message :
    (∀ st p msg, validUserModel (mkUserIn p) = true → st.writeFault = some msg →
      register_user (some st) p = (Except.error ⟨500, msg⟩, some st)) ∧
    (∀ st p msg, st.writeFault = some msg →
      create_course (some st) p = (Except.error ⟨500, msg⟩, some st)) ∧
    (∀ st p msg, st.writeFault = some msg →
      add_schedule_entry (some st) p = (Except.error ⟨500, msg⟩, some st)) ∧
    (∀ st owner msg, st.readFault = some msg →
      list_courses (some st) owner = Except.error ⟨500, msg⟩) ∧
    (∀ st owner msg, st.readFault = some msg →
      get_schedule (some st) owner = Except.error ⟨500, msg⟩) := by
  refine ⟨?_, ?_, ?_, ?_, ?_⟩
  · intro st p msg hv hwf
    simp [register_user, hv, create_user_doc, hwf, storeErrMsg]
  · intro st p msg hwf
    simp [create_course, create_course_doc, hwf, storeErrMsg]
  · intro st p msg hwf
    simp [add_schedule_entry, create_sched_doc, hwf, storeErrMsg]
  · intro st owner msg hrf
    simp [list_courses, get_course_docs, hrf, storeErrMsg]
  · intro st owner msg hrf
    simp [get_schedule, get_sched_docs, hrf, storeErrMsg]

/-- A store whose backend raises an exception on every read. -/
def wReadFaultStore : Store := ⟨[], [], [], [], 0, none, some "read boom"⟩

/-- Witness for the amended C9 at concrete states: a write fault surfaces as
500 with the untruncated 100-character message; a read fault surfaces as 500
with its message. -/
theorem C9_witness :
    create_course (some wFaultStore) wCourse
      = (Except.error ⟨500, wLongMsg⟩, some wFaultStore) ∧
    list_courses (some wReadFaultStore) "a@b.co" = Except.error ⟨500, "read boom"⟩ := by
  exact ⟨C9_boundary_500_full_message.2.1 wFaultStore wCourse wLongMsg rfl,
         C9_boundary_500_full_message.2.2.2.1 wReadFaultStore "a@b.co" "read boom" rfl⟩

/-- C10: round-trip: creating a schedule entry from a valid payload succeeds
with the stringified fresh identifier, and listing the owner's schedule on
the resulting store includes a record agreeing with every submitted field
together with that identifier. -/
theorem C10_schedule_roundtrip (st : Store) (p : SchedPayload)
    (hwf : st.writeFault = none) (hrf : st.readFault = none)
    (hem : isValidEmail p.owner_email = true) :
    ∃ st2, add_schedule_endpoint (some st) p
        = (Except.ok [("id", JVal.str (toString st.nextId))], some st2) ∧
      ∃ items, get_schedule (some st2) p.owner_email = Except.ok items ∧
        ∃ d ∈ items,
          ("_id", JVal.str (toString st.nextId)) ∈ d ∧
          ("owner_email", JVal.str p.owner_email) ∈ d ∧
          ("title", JVal.str p.title) ∈ d ∧
          ("day", JVal.str p.day) ∈ d ∧
          ("start_time", JVal.str p.start_time) ∈ d ∧
          ("end_time", JVal.str p.end_time) ∈ d ∧
          ("location", optStr p.location) ∈ d ∧
          ("notes", optStr p.notes) ∈ d ∧
          ("color", optStr p.color) ∈ d := by
  refine ⟨{ st with
      schedules := st.schedules ++
        [⟨st.nextId, p.owner_email, p.title, p.day, p.start_time, p.end_time,
          p.location, p.notes, p.color⟩],
      nextId := st.nextId + 1 }, ?_, ?_⟩
  · simp [add_schedule_endpoint, hem, add_schedule_entry, create_sched_doc, hwf]
  · refine ⟨(st.schedules.filter (fun s => s.owner_email == p.owner_email)).map schedDict
        ++ [schedDict ⟨st.nextId, p.owner_email, p.title, p.day, p.start_time,
             p.end_time, p.location, p.notes, p.color⟩], ?_, ?_⟩
    · simp [get_schedule, get_sched_docs, hrf]
    · refine ⟨schedDict ⟨st.nextId, p.owner_email, p.title, p.day, p.start_time,
        p.end_time, p.location, p.notes, p.color⟩, ?_, ?_⟩
      · simp
      · simp [schedDict]

/-- A concrete valid schedule payload for the C10 witness. -/
def wSched : SchedPayload :=
  ⟨"a@b.co", "Math", "Mon", "09:00", "10:00", none, none, some "#fff"⟩

/-- Witness for C10 at a concrete store and payload: the hypotheses hold and
the round-trip record exists. -/
theorem C10_witness :
    ∃ st2, add_schedule_endpoint (some wEmptyStore) wSched
        = (Except.ok [("id", JVal.str (toString wEmptyStore.nextId))], some st2) ∧
      ∃ items, get_schedule (some st2) wSched.owner_email = Except.ok items ∧
        ∃ d ∈ items,
          ("_id", JVal.str (toString wEmptyStore.nextId)) ∈ d ∧
          ("owner_email", JVal.str wSched.owner_email) ∈ d ∧
          ("title", JVal.str wSched.title) ∈ d ∧
          ("day", JVal.str wSched.day) ∈ d ∧
          ("start_time", JVal.str wSched.start_time) ∈ d ∧
          ("end_time", JVal.str wSched.end_time) ∈ d ∧
          ("location", optStr wSched.location) ∈ d ∧
          ("notes", optStr wSched.notes) ∈ d ∧
          ("color", optStr wSched.color) ∈ d := by
  exact C10_schedule_roundtrip wEmptyStore wSched rfl rfl (by decide)

end SSO
